import Mathlib

/-!
Verification of the HRDS server (src/server.js) against its specification.

The server treats a Google spreadsheet as a row-oriented record store.  We
embed the spreadsheet tables as lists of rows, a row being a list of cell
strings, and translate each Express handler into a pure Lean function on
that state.  Backend calls that can fail are modelled with explicit Except
values or Boolean failure switches where a claim depends on them.
-/

/-- A spreadsheet row: an ordered list of cell values (strings, as returned
by the Sheets values API). -/
abbrev Row := List String

/-- Digits at the front of a character list, as a number; none if the list
does not start with a digit (parseInt would be NaN). -/
def leadingDigitsVal (cs : List Char) : Option Nat :=
  let ds := cs.takeWhile Char.isDigit
  if ds.isEmpty then none
  else some (ds.foldl (fun a c => a * 10 + (c.toNat - 48)) 0)

/-- JavaScript parseInt(s, 10): skip leading spaces, optional sign, then the
leading run of digits; none models NaN. -/
def parseIntJS (s : String) : Option Int :=
  match s.data.dropWhile (fun c => c = ' ') with
  | '-' :: rest => (leadingDigitsVal rest).map (fun n => -(n : Int))
  | '+' :: rest => (leadingDigitsVal rest).map (fun n => (n : Int))
  | cs => (leadingDigitsVal cs).map (fun n => (n : Int))

/-- getLastRowNumber (server.js lines 50-69) applied to the rows returned for
the reference-column range: 0 when there are no rows; otherwise the first
cell of the last row, put through the chain
rowNumber || null, then parseInt(rowNumber, 10) || 1,
so an absent/empty/zero/unparsable cell yields 1. -/
def getLastRowNumberVals (values : List Row) : Int :=
  if values.length = 0 then 0
  else
    match values.getLast? with
    | none => 1
    | some lastRow =>
      match lastRow.head? with
      | none => 1
      | some cellV =>
        if cellV = "" then 1
        else
          match parseIntJS cellV with
          | none => 1
          | some n => if n = 0 then 1 else n

/-- getLastRowNumber including its catch branch (server.js lines 64-68): a
failed backend read is swallowed and the helper returns 0. -/
def getLastRowNumber (resp : Except Unit (List Row)) : Int :=
  match resp with
  | Except.error _ => 0
  | Except.ok values => getLastRowNumberVals values

/-- The rows returned when reading a single-column range such as
MAIN_DATA!A2:A or LOG_ACTIVITY!A2:A of a table. -/
def colA (sheet : List Row) : List Row :=
  sheet.map (fun r => r.take 1)

/-- JavaScript Array.prototype.findIndex: index of the first row satisfying
the predicate, -1 when there is none. -/
def findIndexJS (p : Row → Bool) : List Row → Int
  | [] => -1
  | r :: rs =>
    if p r then 0
    else if findIndexJS p rs = -1 then -1 else findIndexJS p rs + 1

/-- Replace the element at index i by f applied to it (no change when i is
out of range). -/
def modifyAt (l : List Row) (i : Nat) (f : Row → Row) : List Row :=
  match l.get? i with
  | none => l
  | some x => l.set i (f x)

/-- JavaScript assignment row[i] = v: the row is extended (with empty cells)
when it is shorter than i+1. -/
def setCell (row : Row) (i : Nat) (v : String) : Row :=
  (row ++ List.replicate (i + 1 - row.length) "").set i v

/-- The request body for POST /data/entry and PUT /dataupdate/:id.  The
handlers read exactly the eight named fields; any id carried by the body is
never read. -/
structure Payload where
  id : String
  fullName : String
  populationId : String
  familyId : String
  gender : String
  dateOfBirth : String
  placeOfBirth : String
  religion : String
  bloodType : String
  deriving DecidableEq

/-- The identity attached to an authenticated request (req.user). -/
structure AuthUser where
  name : String
  email : String
  deriving DecidableEq

/-- The three spreadsheet tables the server reads and writes. -/
structure ServerState where
  mainData : List Row
  userList : List Row
  logData : List Row
  deriving DecidableEq

/-- The details argument of logActivity, before JSON.stringify. -/
inductive LogDetails where
  | createD (p : Payload)
  | updateD (id : String) (p : Payload)
  | deleteD (id : String)
  | loginD (msg : String)
  deriving DecidableEq

/-- Wrap a string in JSON quotes. -/
def quoteJson (s : String) : String := "\"" ++ s ++ "\""

/-- JSON serialization of a payload body. -/
def payloadJson (p : Payload) : String :=
  "\x7b\"fullName\":" ++ quoteJson p.fullName ++
  ",\"populationId\":" ++ quoteJson p.populationId ++
  ",\"familyId\":" ++ quoteJson p.familyId ++
  ",\"gender\":" ++ quoteJson p.gender ++
  ",\"dateOfBirth\":" ++ quoteJson p.dateOfBirth ++
  ",\"placeOfBirth\":" ++ quoteJson p.placeOfBirth ++
  ",\"religion\":" ++ quoteJson p.religion ++
  ",\"bloodType\":" ++ quoteJson p.bloodType ++ "\x7d"

/-- JSON.stringify of the details values the handlers pass to logActivity. -/
def jsonStringify : LogDetails → String
  | LogDetails.createD p => "\x7b\"data\":" ++ payloadJson p ++ "\x7d"
  | LogDetails.updateD id p =>
      "\x7b\"id\":" ++ quoteJson id ++ ",\"updates\":" ++ payloadJson p ++ "\x7d"
  | LogDetails.deleteD id => "\x7b\"id\":" ++ quoteJson id ++ "\x7d"
  | LogDetails.loginD msg => quoteJson msg

/-- The LOG_ACTIVITY row built by logActivity (server.js lines 165-187):
sequence number from getLastRowNumber on LOG_ACTIVITY!A2:A plus one, then
actor name, email, action, serialized details and timestamp. -/
def logEntryFor (logSheet : List Row) (u : AuthUser) (action : String)
    (d : LogDetails) (now : String) : Row :=
  [toString (getLastRowNumber (Except.ok (colA logSheet)) + 1),
   u.name, u.email, action, jsonStringify d, now]

/-- logActivity appends exactly its one entry to the LOG_ACTIVITY table. -/
def logActivityRun (logSheet : List Row) (u : AuthUser) (action : String)
    (d : LogDetails) (now : String) : List Row :=
  logSheet ++ [logEntryFor logSheet u action d now]

/-- The MAIN_DATA row built by POST /data/entry (server.js lines 222-237):
[newRowNumber, the eight payload fields, "active", timestamp]. -/
def createdRowFor (mainSheet : List Row) (p : Payload) (now : String) : Row :=
  [toString (getLastRowNumber (Except.ok (colA mainSheet)) + 1),
   p.fullName, p.populationId, p.familyId, p.gender, p.dateOfBirth,
   p.placeOfBirth, p.religion, p.bloodType, "active", now]

/-- Result of POST /data/entry: HTTP status, the new backend state, and the
row echoed in the 201 response body. -/
structure CreateResponse where
  status : Nat
  state : ServerState
  newRow : Row
  deriving DecidableEq

/-- POST /data/entry (server.js lines 220-257) on the success path: compute
the next row number from MAIN_DATA!A2:A, append the new row, log one CREATE
entry, respond 201 with the new row. -/
def createHandler (st : ServerState) (p : Payload) (u : AuthUser) (now : String) :
    CreateResponse :=
  let newRow := createdRowFor st.mainData p now
  { status := 201,
    state := { st with
      mainData := st.mainData ++ [newRow],
      logData := logActivityRun st.logData u "CREATE" (LogDetails.createD p) now },
    newRow := newRow }

/-- The replacement row built by PUT /dataupdate/:id (server.js lines
280-292): the path id, the eight payload fields, "active", timestamp. -/
def updatedRowFor (id : String) (p : Payload) (now : String) : Row :=
  [id, p.fullName, p.populationId, p.familyId, p.gender, p.dateOfBirth,
   p.placeOfBirth, p.religion, p.bloodType, "active", now]

/-- Writing a full row to range A..K of an existing row: the eleven
addressed cells are replaced, cells beyond column K are untouched. -/
def overwriteRowAK (oldRow newRow : Row) : Row :=
  newRow ++ oldRow.drop 11

/-- PUT /dataupdate/:id (server.js lines 260-312): find the row whose first
cell equals the path id (string comparison); 404 when absent; otherwise
overwrite that row over range A..K with the replacement row, log one UPDATE
entry, respond 200. -/
def updateHandler (st : ServerState) (id : String) (p : Payload) (u : AuthUser)
    (now : String) : Nat × ServerState :=
  if findIndexJS (fun row => row.head? == some id) st.mainData = -1 then (404, st)
  else
    (200, { st with
      mainData := modifyAt st.mainData
        (findIndexJS (fun row => row.head? == some id) st.mainData).toNat
        (fun oldRow => overwriteRowAK oldRow (updatedRowFor id p now)),
      logData := logActivityRun st.logData u "UPDATE" (LogDetails.updateD id p) now })

/-- PUT /data/:id, the soft delete (server.js lines 315-348): same lookup as
update; 404 when absent; otherwise write the single cell MAIN_DATA!K of that
row (index 10) with the marker "tidak aktif", log one DELETE entry, respond
200. -/
def deleteHandler (st : ServerState) (id : String) (u : AuthUser)
    (now : String) : Nat × ServerState :=
  if findIndexJS (fun row => row.head? == some id) st.mainData = -1 then (404, st)
  else
    (200, { st with
      mainData := modifyAt st.mainData
        (findIndexJS (fun row => row.head? == some id) st.mainData).toNat
        (fun oldRow => setCell oldRow 10 "tidak aktif"),
      logData := logActivityRun st.logData u "DELETE" (LogDetails.deleteD id) now })

/-- The flat JSON object GET /data builds from one row (server.js lines
199-210): ten keys, taken from cell indexes 0 through 9; a missing cell is
an undefined property, modelled as none. -/
def toRecordJson (row : Row) : List (String × Option String) :=
  [("id", row.get? 0), ("fullName", row.get? 1), ("populationId", row.get? 2),
   ("familyId", row.get? 3), ("gender", row.get? 4), ("dateOfBirth", row.get? 5),
   ("placeOfBirth", row.get? 6), ("religion", row.get? 7), ("bloodType", row.get? 8),
   ("lastUpdated", row.get? 9)]

/-- GET /data (server.js lines 191-217) on the success path: one object per
row of MAIN_DATA!A2:K. -/
def listHandler (st : ServerState) : List (List (String × Option String)) :=
  st.mainData.map toRecordJson

/-- The decoded JWT session payload. -/
structure Decoded where
  email : String
  name : String
  exp : Int
  deriving DecidableEq

/-- What the authenticate middleware did to a request: the HTTP statuses it
wrote to the response, whether next() was called, and req.user. -/
structure MiddlewareOutcome where
  sent : List Nat
  continued : Bool
  user : Option Decoded
  deriving DecidableEq

/-- The authenticate middleware (server.js lines 142-158).  verify models
jwt.verify on the bearer token: an error is a thrown verification failure,
ok is the decoded payload of a token whose signature was accepted.  On the
ok path the code compares decoded.exp with the current time and sends a 401
response when it is expired, but has no return there: it still sets
req.user and calls next(). -/
def authenticate (token : Option String) (verify : String → Except Unit Decoded)
    (currentTime : Int) : MiddlewareOutcome :=
  match token with
  | none => { sent := [401], continued := false, user := none }
  | some t =>
    match verify t with
    | Except.error _ => { sent := [401], continued := false, user := none }
    | Except.ok decoded =>
      { sent := if decoded.exp < currentTime then [401] else [],
        continued := true,
        user := some decoded }

/-- The identity extracted from a verified Google ticket. -/
structure GoogleUser where
  email : String
  name : String
  googleId : String
  deriving DecidableEq

/-- Result of POST /auth/google: HTTP status and the two tables it may
write. -/
structure AuthGoogleResponse where
  status : Nat
  userList : List Row
  logData : List Row
  deriving DecidableEq

/-- POST /auth/google (server.js lines 72-139) after a successful token
verification.  The handler scans USER_LIST for a row whose cell C (index 2)
equals the email.  When the user is absent the code evaluates
users.push([user.name, credentials, sessionToken, "user"]) where
credentials is an undefined identifier: the ReferenceError is caught by the
handler's catch block, which responds 401 with nothing written.  When the
user is present, cells 1, 3, 4 and 5 of that row are overwritten in place,
the whole table is written back, and one LOGIN entry is logged. -/
def authGoogle (user : GoogleUser) (token sessionToken : String)
    (userList logData : List Row) (now : String) : AuthGoogleResponse :=
  if findIndexJS (fun u => u.get? 2 == some user.email) userList = -1 then
    { status := 401, userList := userList, logData := logData }
  else
    { status := 200,
      userList := modifyAt userList
        (findIndexJS (fun u => u.get? 2 == some user.email) userList).toNat
        (fun u => setCell (setCell (setCell (setCell u 1 user.name) 3 token)
          4 sessionToken) 5 "user"),
      logData := logActivityRun logData { name := user.name, email := user.email }
        "LOGIN" (LogDetails.loginD "User Login Attempt") now }

/-- Which backend calls of POST /data/entry fail (throw) during a request. -/
structure BackendFailures where
  mainRefFail : Bool
  mainAppendFail : Bool
  logRefFail : Bool
  logAppendFail : Bool
  deriving DecidableEq

/-- getLastRowNumber where the backend read itself may fail: the catch
branch turns the failure into 0. -/
def getLastRowNumberF (fail : Bool) (values : List Row) : Int :=
  if fail then getLastRowNumber (Except.error ())
  else getLastRowNumber (Except.ok values)

/-- The created row when the MAIN_DATA reference read may have failed. -/
def createdRowForF (refFail : Bool) (mainSheet : List Row) (p : Payload)
    (now : String) : Row :=
  [toString (getLastRowNumberF refFail (colA mainSheet) + 1),
   p.fullName, p.populationId, p.familyId, p.gender, p.dateOfBirth,
   p.placeOfBirth, p.religion, p.bloodType, "active", now]

/-- POST /data/entry with explicit backend-failure switches.  A failing
MAIN_DATA append throws and is caught by the handler (500, nothing
written).  A failing LOG_ACTIVITY append makes logActivity throw, caught by
the handler (500), but the MAIN_DATA append has already happened.  Failing
reference-column reads are swallowed inside getLastRowNumber, which returns
0, and the request continues. -/
def createHandlerF (f : BackendFailures) (st : ServerState) (p : Payload)
    (u : AuthUser) (now : String) : Nat × ServerState :=
  if f.mainAppendFail then (500, st)
  else if f.logAppendFail then
    (500, { st with mainData := st.mainData ++ [createdRowForF f.mainRefFail st.mainData p now] })
  else
    (201, { st with
      mainData := st.mainData ++ [createdRowForF f.mainRefFail st.mainData p now],
      logData := st.logData ++
        [[toString (getLastRowNumberF f.logRefFail (colA st.logData) + 1),
          u.name, u.email, "CREATE", jsonStringify (LogDetails.createD p), now]] })

/-- Sample create/update payload used in concrete evaluations. -/
def pA : Payload :=
  { id := "99", fullName := "Alice", populationId := "P1", familyId := "F1",
    gender := "F", dateOfBirth := "2000-01-01", placeOfBirth := "X",
    religion := "R", bloodType := "O" }

/-- A second sample payload. -/
def pB : Payload :=
  { id := "2", fullName := "Bob", populationId := "P2", familyId := "F2",
    gender := "M", dateOfBirth := "1999-09-09", placeOfBirth := "Y",
    religion := "S", bloodType := "A" }

/-- Sample authenticated user. -/
def uA : AuthUser := { name := "Admin", email := "admin@example.com" }

/-- Sample state whose MAIN_DATA holds one record with id 1. -/
def stW : ServerState :=
  { mainData := [["1", "A", "P", "F", "G", "D", "PL", "R", "O", "active", "T0"]],
    userList := [], logData := [] }
/-- The empty backend state. -/
def st0 : ServerState := { mainData := [], userList := [], logData := [] }

/-- A state whose MAIN_DATA holds one row with id cell "5". -/
def st5 : ServerState := { mainData := [["5"]], userList := [], logData := [] }

/-- A state whose LOG_ACTIVITY table holds one entry with sequence cell "5". -/
def stL5 : ServerState :=
  { mainData := [], userList := [],
    logData := [["5", "n", "e", "LOGIN", "d", "t"]] }

/-- A state whose MAIN_DATA holds one record with id 7. -/
def st7 : ServerState :=
  { mainData := [["7", "B", "P", "F", "G", "D", "PL", "R", "O", "active", "T0"]],
    userList := [], logData := [] }

/-- Failure switches: only the MAIN_DATA reference-column read fails. -/
def failRef : BackendFailures :=
  { mainRefFail := true, mainAppendFail := false, logRefFail := false,
    logAppendFail := false }

/-- Failure switches: only the MAIN_DATA append fails. -/
def failAppend : BackendFailures :=
  { mainRefFail := false, mainAppendFail := true, logRefFail := false,
    logAppendFail := false }

/-- Failure switches: only the LOG_ACTIVITY append fails. -/
def failLogAppend : BackendFailures :=
  { mainRefFail := false, mainAppendFail := false, logRefFail := false,
    logAppendFail := true }

/-- The state after creating one record on the empty table. -/
def stAfterCreate : ServerState := (createHandler st0 pA uA "T1").state

/-- The state after then soft-deleting that record. -/
def stAfterDelete : ServerState := (deleteHandler stAfterCreate "1" uA "T2").2

/-- The outcome of then updating that record with the second payload. -/
def afterUpdate : Nat × ServerState := updateHandler stAfterDelete "1" pB uA "T3"

/-- The field names of the first object listed from a state. -/
def firstListedKeys (st : ServerState) : List String :=
  ((listHandler st).head?.getD []).map Prod.fst

/-- findIndexJS returns -1 on a list with no satisfying row. -/
theorem findIndexJS_eq_neg_one (p : Row → Bool) (l : List Row)
    (h : ∀ x ∈ l, p x = false) : findIndexJS p l = -1 := by
  induction l with
  | nil => rfl
  | cons a t ih =>
    have ha : p a = false := h a (List.mem_cons_self a t)
    have ht : findIndexJS p t = -1 := ih (fun x hx => h x (List.mem_cons_of_mem a hx))
    simp [findIndexJS, ha, ht]

/-- A member of modifyAt l i f is a member of l or the image under f of some
element. -/
theorem mem_modifyAt_or (l : List Row) (i : Nat) (f : Row → Row) (row : Row)
    (h : row ∈ modifyAt l i f) : row ∈ l ∨ ∃ x, row = f x := by
  unfold modifyAt at h
  cases hg : l.get? i with
  | none => rw [hg] at h; exact Or.inl h
  | some x =>
    rw [hg] at h
    rcases List.mem_or_eq_of_mem_set h with h1 | h2
    · exact Or.inl h1
    · exact Or.inr ⟨x, h2⟩

/-- C1 counterexample: on a table whose single row has id cell "5", the
create handler assigns id 6, while 1 plus the number of existing rows is 2. -/
theorem create_id_not_count_plus_one :
    ((createHandler st5 pA uA "T1").newRow.head? = some "6") ∧
    st5.mainData.length + 1 = 2 ∧ ("6" : String) ≠ "2" := by
  decide

/-- C1 (amended): the id assigned by the create handler is 1 plus
getLastRowNumber of the id column, i.e. 1 plus the parsed first cell of the
last existing row, and creating on an empty table assigns id 1. -/
theorem create_id_from_last_cell (st : ServerState) (p : Payload) (u : AuthUser)
    (now : String) :
    (createHandler st p u now).newRow.head? =
      some (toString (getLastRowNumber (Except.ok (colA st.mainData)) + 1)) ∧
    (createHandler st0 p u now).newRow.head? = some "1" :=
  ⟨rfl, rfl⟩

/-- C2: soft delete on a freshly created record answers 200 but writes the
marker "tidak aktif" into cell index 10 (column K, the lastUpdated position
of the creation layout) and leaves the status cell at index 9 equal to
"active", so the list output is completely unchanged. -/
theorem soft_delete_misses_status_cell :
    (deleteHandler stAfterCreate "1" uA "T2").1 = 200 ∧
    (stAfterDelete.mainData.head?.bind (fun row => row.get? 9)) = some "active" ∧
    (stAfterDelete.mainData.head?.bind (fun row => row.get? 10)) = some "tidak aktif" ∧
    listHandler stAfterDelete = listHandler stAfterCreate := by
  decide

/-- C3: updating a previously soft-deleted record returns 200 and forces the
status cell (index 9) to "active", but the subsequent list output carries no
status field at all: its keys are the ten names below, and the value
"active" surfaces under the lastUpdated key. -/
theorem update_then_list_shows_no_status :
    afterUpdate.1 = 200 ∧
    (afterUpdate.2.mainData.head?.bind (fun row => row.get? 9)) = some "active" ∧
    firstListedKeys afterUpdate.2 =
      ["id", "fullName", "populationId", "familyId", "gender", "dateOfBirth",
       "placeOfBirth", "religion", "bloodType", "lastUpdated"] ∧
    ("status" ∉ firstListedKeys afterUpdate.2) ∧
    (("lastUpdated", some "active") ∈ ((listHandler afterUpdate.2).head?.getD [])) := by
  decide

/-- C4: listing a table with one freshly created record returns one object
whose keys omit status entirely, whose lastUpdated value is the status cell
"active", while the actual timestamp "T1" sits unread in cell index 10. -/
theorem list_omits_status_field :
    listHandler stAfterCreate =
      [[("id", some "1"), ("fullName", some "Alice"), ("populationId", some "P1"),
        ("familyId", some "F1"), ("gender", some "F"),
        ("dateOfBirth", some "2000-01-01"), ("placeOfBirth", some "X"),
        ("religion", some "R"), ("bloodType", some "O"),
        ("lastUpdated", some "active")]] ∧
    ("status" ∉ firstListedKeys stAfterCreate) ∧
    (stAfterCreate.mainData.head?.bind (fun row => row.get? 10)) = some "T1" := by
  decide

/-- C5 counterexample: with a log table whose single row has sequence cell
"5", a create logs an entry with sequence 6, while 1 plus the prior row
count of the log table is 2. -/
theorem log_seq_not_count_plus_one :
    (((createHandler stL5 pA uA "T1").state.logData.getLast?).bind List.head? =
      some "6") ∧
    stL5.logData.length + 1 = 2 ∧ ("6" : String) ≠ "2" := by
  decide

/-- C5 (amended): every successful create, update or delete appends exactly
one log entry, whose sequence number is 1 plus getLastRowNumber of the log
reference column, i.e. 1 plus the parsed first cell of the last existing
log row. -/
theorem audit_one_entry_seq_from_last_cell (st : ServerState) (id : String)
    (p : Payload) (u : AuthUser) (now : String)
    (h : findIndexJS (fun row => row.head? == some id) st.mainData ≠ -1) :
    (createHandler st p u now).state.logData =
      st.logData ++ [logEntryFor st.logData u "CREATE" (LogDetails.createD p) now] ∧
    (updateHandler st id p u now).2.logData =
      st.logData ++ [logEntryFor st.logData u "UPDATE" (LogDetails.updateD id p) now] ∧
    (deleteHandler st id u now).2.logData =
      st.logData ++ [logEntryFor st.logData u "DELETE" (LogDetails.deleteD id) now] := by
  refine ⟨rfl, ?_, ?_⟩
  · unfold updateHandler
    rw [if_neg h]
    rfl
  · unfold deleteHandler
    rw [if_neg h]
    rfl

/-- C5 witness: the amended audit property evaluated on a concrete state
holding the record with id 1. -/
theorem audit_one_entry_witness :
    (createHandler stW pA uA "T9").state.logData =
      stW.logData ++ [logEntryFor stW.logData uA "CREATE" (LogDetails.createD pA) "T9"] ∧
    (updateHandler stW "1" pA uA "T9").2.logData =
      stW.logData ++ [logEntryFor stW.logData uA "UPDATE" (LogDetails.updateD "1" pA) "T9"] ∧
    (deleteHandler stW "1" uA "T9").2.logData =
      stW.logData ++ [logEntryFor stW.logData uA "DELETE" (LogDetails.deleteD "1") "T9"] :=
  audit_one_entry_seq_from_last_cell stW "1" pA uA "T9" (by decide)

/-- C6: when no row's id cell equals the requested id, both the update and
the soft-delete handler answer 404 and leave every table, the log included,
unchanged. -/
theorem unknown_id_404_no_changes (st : ServerState) (id : String) (p : Payload)
    (u : AuthUser) (now : String)
    (h : ∀ row ∈ st.mainData, row.head? ≠ some id) :
    updateHandler st id p u now = (404, st) ∧ deleteHandler st id u now = (404, st) := by
  have hb : ∀ row ∈ st.mainData, (row.head? == some id) = false := by
    intro row hrow
    exact beq_eq_false_iff_ne.mpr (h row hrow)
  have hf := findIndexJS_eq_neg_one (fun row => row.head? == some id) st.mainData hb
  constructor
  · unfold updateHandler
    rw [if_pos hf]
  · unfold deleteHandler
    rw [if_pos hf]

/-- C6 witness: updating or soft-deleting id 9, absent from the concrete
table, answers 404 with the state unchanged. -/
theorem unknown_id_404_witness :
    updateHandler stW "9" pA uA "T8" = (404, stW) ∧
    deleteHandler stW "9" uA "T8" = (404, stW) :=
  unknown_id_404_no_changes stW "9" pA uA "T8" (by decide)

/-- C7: on the middleware path where the decoded session payload is expired
(exp 0, current time 100) and the signature was accepted, the middleware
sends a 401 response and nevertheless continues to the protected handler:
the expired outcome and the continue outcome are both taken. -/
theorem expired_token_sends_401_and_continues :
    (authenticate (some "t")
        (fun _ => Except.ok { email := "e", name := "n", exp := 0 }) 100).sent = [401] ∧
    (authenticate (some "t")
        (fun _ => Except.ok { email := "e", name := "n", exp := 0 }) 100).continued = true := by
  decide

/-- C8 counterexample: when the MAIN_DATA reference-column read fails but
the appends succeed, a create on a nonempty table still answers 201 and
appends a row with the substitute id 1 instead of failing. -/
theorem backend_failure_not_surfaced :
    (createHandlerF failRef st7 pA uA "T1").1 = 201 ∧
    ((createHandlerF failRef st7 pA uA "T1").2.mainData.getLast?.bind List.head? =
      some "1") := by
  decide

/-- C8 (amended): a failing MAIN_DATA append surfaces as a 500 with nothing
written; a failing LOG_ACTIVITY append surfaces as a 500 after the main row
was written; but a failing reference-column read is swallowed inside
getLastRowNumber and the create continues with substitute id 1 and answers
201. -/
theorem backend_failure_policy (st : ServerState) (p : Payload) (u : AuthUser)
    (now : String) :
    createHandlerF failAppend st p u now = (500, st) ∧
    (createHandlerF failLogAppend st p u now).1 = 500 ∧
    (createHandlerF failLogAppend st p u now).2.mainData =
      st.mainData ++ [createdRowForF false st.mainData p now] ∧
    (createHandlerF failRef st p u now).1 = 201 ∧
    (createHandlerF failRef st p u now).2.mainData =
      st.mainData ++ [createdRowForF true st.mainData p now] ∧
    (createdRowForF true st.mainData p now).head? = some "1" :=
  ⟨rfl, rfl, rfl, rfl, rfl, rfl⟩

/-- C9: a login whose email is absent from the user table (here: empty
table) answers 401 and appends neither a user row nor a log entry, because
the insert branch evaluates the undefined identifier credentials and the
thrown ReferenceError is caught by the handler. -/
theorem new_user_login_fails_nothing_appended :
    authGoogle { email := "a@b.c", name := "A", googleId := "g" } "tok" "sess"
        [] [] "T1" =
      { status := 401, userList := [], logData := [] } := by
  decide

/-- C10: the replacement row written by the update handler always has the
requested path id in its id cell, whatever the payload carries, so every
row of the table after an update either already existed or has the path id. -/
theorem update_writes_path_id (st : ServerState) (id : String) (p : Payload)
    (u : AuthUser) (now : String) :
    (updatedRowFor id p now).head? = some id ∧
    ∀ row ∈ (updateHandler st id p u now).2.mainData,
      row ∈ st.mainData ∨ row.head? = some id := by
  refine ⟨rfl, ?_⟩
  intro row hrow
  unfold updateHandler at hrow
  split at hrow
  · exact Or.inl hrow
  · rcases mem_modifyAt_or _ _ _ _ hrow with h1 | ⟨x, hx⟩
    · exact Or.inl h1
    · rw [hx]
      exact Or.inr rfl

/-- C10 witness: the row present after updating id 1 with the payload whose
own id field is "99" carries id cell "1". -/
theorem update_writes_path_id_witness :
    updatedRowFor "1" pA "T7" ∈ stW.mainData ∨
    (updatedRowFor "1" pA "T7").head? = some "1" :=
  (update_writes_path_id stW "1" pA uA "T7").2 (updatedRowFor "1" pA "T7") (by decide)
